import Mathlib

/-!
Shallow embedding of the topic-creation payload variant of the
hiero-sdk-rust transaction core (src/src/topic/topic_create_transaction.rs),
together with the parts of the generic machinery it relies on.  Types that
live in the repository but outside the provided source file (the ledger id,
account identifier, key and duration value types, the chunk metadata and the
generic transaction wrapper) are modelled from the specification; each such
definition carries a doc comment starting with "Modelled from the spec:".
Panicking operations are embedded as Option-returning functions (none is a
panic); fallible operations return Except.
-/

/-- Modelled from the spec: the network identity (ledger identifier) a
payload's entity identifiers are checked against. -/
structure LedgerId where
  bytes : List Nat
deriving DecidableEq

/-- Modelled from the spec: errors reported to the caller. Decode failures
and checksum-validation failures are distinct. -/
inductive Error where
  | fromProtobuf
  | checksumMismatch
deriving DecidableEq

/-- Modelled from the spec: an opaque network entity identifier (account).
It optionally carries an embedded network tag (checksum) that checksum
validation compares against the supplied network identity; the tag is a
client-side annotation, not part of the opaque wire representation. -/
structure AccountId where
  shard : Nat
  realm : Nat
  num : Nat
  checksum : Option LedgerId
deriving DecidableEq

/-- Modelled from the spec: the wire representation of an account
identifier (shard, realm and account number). -/
structure PbAccountId where
  shard_num : Nat
  realm_num : Nat
  account_num : Nat
deriving DecidableEq

/-- Modelled from the spec: an identifier encodes to its opaque wire
representation; the embedded network tag is not wire data. -/
def AccountId.to_protobuf (a : AccountId) : PbAccountId :=
  ⟨a.shard, a.realm, a.num⟩

/-- Modelled from the spec: decoding an identifier from the wire never
fails and yields an identifier without an embedded network tag. -/
def AccountId.from_protobuf (pb : PbAccountId) : Except Error AccountId :=
  .ok ⟨pb.shard_num, pb.realm_num, pb.account_num, none⟩

/-- Modelled from the spec: the wire form of an embedded key; the oneof
payload may be absent, which is a malformed key encoding. -/
inductive PbKeyValue where
  | ed25519 (bytes : List Nat)
deriving DecidableEq

/-- Modelled from the spec: wire message for a cryptographic key. -/
structure PbKey where
  key : Option PbKeyValue
deriving DecidableEq

/-- Modelled from the spec: a cryptographic public-key handle. -/
inductive Key where
  | ed25519 (bytes : List Nat)
deriving DecidableEq

/-- Modelled from the spec: a key encodes via its own wire-encoding rule. -/
def Key.to_protobuf : Key → PbKey
  | .ed25519 bs => ⟨some (.ed25519 bs)⟩

/-- Modelled from the spec: decoding a key fails on an invalid embedded key
encoding (an absent oneof payload) instead of defaulting. -/
def Key.from_protobuf : PbKey → Except Error Key
  | ⟨some (.ed25519 bs)⟩ => .ok (.ed25519 bs)
  | ⟨none⟩ => .error .fromProtobuf

/-- Modelled from the spec: a duration value; encodes to a seconds count. -/
structure Duration where
  seconds : Int
deriving DecidableEq

/-- Modelled from the spec: wire message for a duration (seconds count). -/
structure PbDuration where
  seconds : Int
deriving DecidableEq

/-- Modelled from the spec: a duration encodes to a seconds count. -/
def Duration.to_protobuf (d : Duration) : PbDuration :=
  ⟨d.seconds⟩

/-- Modelled from the spec: a wire duration converts back into a duration
value by its seconds count. -/
def PbDuration.toDuration (pb : PbDuration) : Duration :=
  ⟨pb.seconds⟩

/-- Modelled from the spec: a duration of a number of days. -/
def Duration.days (n : Int) : Duration :=
  ⟨n * 86400⟩

/-- Modelled from the spec: a proposed transaction identifier carrying the
identity of the paying/originating account, plus a timestamp. -/
structure TransactionId where
  account_id : AccountId
  valid_start : Nat
deriving DecidableEq

/-- Modelled from the spec: chunking metadata of the owning transaction for
the current transaction attempt. -/
structure ChunkInfo where
  current : Nat
  total : Nat
  current_transaction_id : TransactionId
deriving DecidableEq

/-- Modelled from the spec: chunk metadata describing exactly one chunk. -/
def ChunkInfo.single (id : TransactionId) : ChunkInfo :=
  ⟨0, 1, id⟩

/-- Modelled from the spec: asserts (fails fast, non-recoverably) that the
chunk metadata describes exactly one chunk; none embeds the panic. -/
def ChunkInfo.assert_single_transaction (c : ChunkInfo) : Option TransactionId :=
  if c.total = 1 then some c.current_transaction_id else none

/-- The topic-creation payload (TopicCreateTransactionData, source lines
58 to 76). -/
structure TopicCreateTransactionData where
  topic_memo : String
  admin_key : Option Key
  submit_key : Option Key
  auto_renew_period : Option Duration
  auto_renew_account_id : Option AccountId
deriving DecidableEq

/-- Default for TopicCreateTransactionData (source lines 78 to 88): empty
memo, no keys, a 90-day auto-renew period, no auto-renew account. -/
def TopicCreateTransactionData.default : TopicCreateTransactionData :=
  { topic_memo := ""
    admin_key := none
    submit_key := none
    auto_renew_period := some (Duration.days 90)
    auto_renew_account_id := none }

/-- The wire message ConsensusCreateTopicTransactionBody (spec section 6). -/
structure ConsensusCreateTopicTransactionBody where
  memo : String
  admin_key : Option PbKey
  submit_key : Option PbKey
  auto_renew_period : Option PbDuration
  auto_renew_account : Option PbAccountId
deriving DecidableEq

/-- ToProtobuf for TopicCreateTransactionData (source lines 221 to 233):
each optional field encodes by mapping its value type's encoder. -/
def TopicCreateTransactionData.to_protobuf
    (d : TopicCreateTransactionData) : ConsensusCreateTopicTransactionBody :=
  { auto_renew_account := d.auto_renew_account_id.map AccountId.to_protobuf
    memo := d.topic_memo
    admin_key := d.admin_key.map Key.to_protobuf
    submit_key := d.submit_key.map Key.to_protobuf
    auto_renew_period := d.auto_renew_period.map Duration.to_protobuf }

/-- FromProtobuf for an optional wire key (Option::from_protobuf): absent
decodes to unset, present decodes through the key decoder. -/
def optionKeyFromProtobuf : Option PbKey → Except Error (Option Key)
  | none => .ok none
  | some pb => (Key.from_protobuf pb).map some

/-- FromProtobuf for an optional wire account id (Option::from_protobuf). -/
def optionAccountFromProtobuf : Option PbAccountId → Except Error (Option AccountId)
  | none => .ok none
  | some pb => (AccountId.from_protobuf pb).map some

/-- FromProtobuf for TopicCreateTransactionData (source lines 209 to 219);
the nested matches embed the early returns of the fallible conversions. -/
def TopicCreateTransactionData.from_protobuf
    (pb : ConsensusCreateTopicTransactionBody) :
    Except Error TopicCreateTransactionData :=
  match optionKeyFromProtobuf pb.admin_key with
  | .error e => .error e
  | .ok admin_key =>
    match optionKeyFromProtobuf pb.submit_key with
    | .error e => .error e
    | .ok submit_key =>
      match optionAccountFromProtobuf pb.auto_renew_account with
      | .error e => .error e
      | .ok auto_renew_account_id =>
        .ok { topic_memo := pb.memo
              admin_key := admin_key
              submit_key := submit_key
              auto_renew_period := pb.auto_renew_period.map PbDuration.toDuration
              auto_renew_account_id := auto_renew_account_id }

/-- The transaction-body data oneof, restricted to the case this payload
kind produces (services::transaction_body::Data::ConsensusCreateTopic).
The schedulable-body oneof has the same shape and is embedded by the same
type. -/
inductive TransactionBodyData where
  | ConsensusCreateTopic (body : ConsensusCreateTopicTransactionBody)
deriving DecidableEq

/-- ToTransactionDataProtobuf for TopicCreateTransactionData (source lines
176 to 193): asserts single chunk, encodes the payload, and fills the
auto_renew_account wire field with the paying account of the current
transaction attempt when it is unset. none embeds the panic of the
single-chunk assertion. -/
def TopicCreateTransactionData.to_transaction_data_protobuf
    (d : TopicCreateTransactionData) (chunk_info : ChunkInfo) :
    Option TransactionBodyData :=
  match chunk_info.assert_single_transaction with
  | none => none
  | some _ =>
    let protobuf_data := d.to_protobuf
    let protobuf_data :=
      if protobuf_data.auto_renew_account.isNone then
        { protobuf_data with
          auto_renew_account :=
            some chunk_info.current_transaction_id.account_id.to_protobuf }
      else protobuf_data
    some (.ConsensusCreateTopic protobuf_data)

/-- ToSchedulableTransactionDataProtobuf for TopicCreateTransactionData
(source lines 195 to 201): the plain encoding, no default filling. -/
def TopicCreateTransactionData.to_schedulable_transaction_data_protobuf
    (d : TopicCreateTransactionData) : TransactionBodyData :=
  .ConsensusCreateTopic d.to_protobuf

/-- Modelled from the spec: checksum validation of an identifier against a
network identity; an identifier without an embedded network tag trivially
validates, and a tag validates exactly when it matches the identity. -/
def AccountId.validate_checksums (a : AccountId) (ledger_id : LedgerId) :
    Except Error Unit :=
  match a.checksum with
  | none => .ok ()
  | some tag => if tag = ledger_id then .ok () else .error .checksumMismatch

/-- Modelled from the spec: an absent optional identifier trivially
validates. -/
def optionValidateChecksums : Option AccountId → LedgerId → Except Error Unit
  | none, _ => .ok ()
  | some a, ledger_id => a.validate_checksums ledger_id

/-- ValidateChecksums for TopicCreateTransactionData (source lines 170 to
174): delegates to the optional auto-renew account identifier. -/
def TopicCreateTransactionData.validate_checksums
    (d : TopicCreateTransactionData) (ledger_id : LedgerId) :
    Except Error Unit :=
  optionValidateChecksums d.auto_renew_account_id ledger_id

/-- Modelled from the spec: the generic transaction wrapper specialised to
the topic-creation payload — the payload, the frozen flag (initially
false) and the proposed transaction identifier carrying the paying
account. -/
structure Transaction where
  body_data : TopicCreateTransactionData
  frozen : Bool
  transaction_id : Option TransactionId
deriving DecidableEq

/-- Modelled from the spec: a freshly created transaction is mutable and
holds the defaulted payload. -/
def Transaction.new : Transaction :=
  ⟨TopicCreateTransactionData.default, false, none⟩

/-- The shared-reference payload accessor used by every getter. -/
def Transaction.data (tx : Transaction) : TopicCreateTransactionData :=
  tx.body_data

/-- Modelled from the spec: the mutable payload accessor used by every
setter; it fails fast (panics, embedded as none) when the transaction is
already frozen, and otherwise applies the mutation. -/
def Transaction.data_mut (tx : Transaction)
    (f : TopicCreateTransactionData → TopicCreateTransactionData) :
    Option Transaction :=
  if tx.frozen then none else some { tx with body_data := f tx.body_data }

/-- Setter topic_memo (source lines 100 to 103). -/
def Transaction.topic_memo (tx : Transaction) (memo : String) : Option Transaction :=
  tx.data_mut (fun d => { d with topic_memo := memo })

/-- Setter admin_key (source lines 114 to 117). -/
def Transaction.admin_key (tx : Transaction) (key : Key) : Option Transaction :=
  tx.data_mut (fun d => { d with admin_key := some key })

/-- Setter submit_key (source lines 126 to 129). -/
def Transaction.submit_key (tx : Transaction) (key : Key) : Option Transaction :=
  tx.data_mut (fun d => { d with submit_key := some key })

/-- Setter auto_renew_period (source lines 140 to 143). -/
def Transaction.auto_renew_period (tx : Transaction) (period : Duration) : Option Transaction :=
  tx.data_mut (fun d => { d with auto_renew_period := some period })

/-- Setter auto_renew_account_id (source lines 152 to 155). -/
def Transaction.auto_renew_account_id (tx : Transaction) (id : AccountId) : Option Transaction :=
  tx.data_mut (fun d => { d with auto_renew_account_id := some id })

/-- Getter get_topic_memo (source lines 93 to 95); total, never fails. -/
def Transaction.get_topic_memo (tx : Transaction) : String :=
  tx.data.topic_memo

/-- Getter get_admin_key (source lines 108 to 110); total, never fails. -/
def Transaction.get_admin_key (tx : Transaction) : Option Key :=
  tx.data.admin_key

/-- Getter get_submit_key (source lines 121 to 123); total, never fails. -/
def Transaction.get_submit_key (tx : Transaction) : Option Key :=
  tx.data.submit_key

/-- Getter get_auto_renew_period (source lines 134 to 136); total, never
fails. -/
def Transaction.get_auto_renew_period (tx : Transaction) : Option Duration :=
  tx.data.auto_renew_period

/-- Getter get_auto_renew_account_id (source lines 147 to 149); total,
never fails. -/
def Transaction.get_auto_renew_account_id (tx : Transaction) : Option AccountId :=
  tx.data.auto_renew_account_id

/-- Modelled from the spec: freeze transitions the transaction to the
frozen state and records the proposed transaction identifier (with the
paying account); it fills no payload defaults — the renewal-funding
default is computed lazily at encode time, never at freeze time. -/
def Transaction.freeze (tx : Transaction) (id : TransactionId) : Transaction :=
  { tx with frozen := true, transaction_id := some id }

/-- The variant registry (AnyTransactionData), a closed sum over payload
kinds, shown here with the case this file's payload occupies. -/
inductive AnyTransactionData where
  | TopicCreate (data : TopicCreateTransactionData)
deriving DecidableEq

/-- From TopicCreateTransactionData for AnyTransactionData (source lines
203 to 207): total injection into the registry's TopicCreate case. -/
def TopicCreateTransactionData.toAnyTransactionData
    (transaction : TopicCreateTransactionData) : AnyTransactionData :=
  .TopicCreate transaction

/-- Modelled from the spec: the wire transaction body — wrapper metadata
(the transaction identifier, hence timestamp and payer) plus the encoded
payload oneof. Serialisation of this message to bytes is the external
protobuf layer, injective on this structure, so the byte round trip is
embedded as a round trip through this message. -/
structure TransactionBody where
  transaction_id : TransactionId
  data : TransactionBodyData
deriving DecidableEq

/-- Modelled from the spec: serialising a whole transaction; requires the
transaction to be frozen with a recorded transaction identifier, and
encodes the payload on the transaction-body path with single-chunk
metadata for the current attempt. -/
def Transaction.to_wire (tx : Transaction) : Option TransactionBody :=
  if tx.frozen then
    match tx.transaction_id with
    | some id =>
      match tx.body_data.to_transaction_data_protobuf (ChunkInfo.single id) with
      | some d => some ⟨id, d⟩
      | none => none
    | none => none
  else none

/-- Modelled from the spec: a type-erased transaction — the registry sum
plus the wrapper metadata. -/
structure AnyTransaction where
  body_data : AnyTransactionData
  frozen : Bool
  transaction_id : Option TransactionId
deriving DecidableEq

/-- Transaction-body encoding dispatched over the registry. -/
def AnyTransactionData.to_transaction_data_protobuf :
    AnyTransactionData → ChunkInfo → Option TransactionBodyData
  | .TopicCreate d, c => d.to_transaction_data_protobuf c

/-- Modelled from the spec: deserialising bytes back into a type-erased
transaction — the wire oneof discriminant selects the payload decoder, and
a decode failure in the payload propagates. The decoded transaction is
frozen and carries the wire metadata. -/
def AnyTransaction.from_wire (body : TransactionBody) : Except Error AnyTransaction :=
  match body.data with
  | .ConsensusCreateTopic pb =>
    (TopicCreateTransactionData.from_protobuf pb).map
      (fun d => ⟨.TopicCreate d, true, some body.transaction_id⟩)

/-- Modelled from the spec: serialising a type-erased transaction, the
same way as the typed wrapper. -/
def AnyTransaction.to_wire (tx : AnyTransaction) : Option TransactionBody :=
  if tx.frozen then
    match tx.transaction_id with
    | some id =>
      match tx.body_data.to_transaction_data_protobuf (ChunkInfo.single id) with
      | some d => some ⟨id, d⟩
      | none => none
    | none => none
  else none

/-- Proof-support: an identifier with its client-side network tag erased,
as wire decoding reproduces it. -/
def AccountId.strip (a : AccountId) : AccountId :=
  ⟨a.shard, a.realm, a.num, none⟩

/-- Proof-support: the payload with the network tags of its identifier
fields erased, as a wire round trip reproduces it. -/
def TopicCreateTransactionData.stripChecksums
    (d : TopicCreateTransactionData) : TopicCreateTransactionData :=
  { d with auto_renew_account_id := d.auto_renew_account_id.map AccountId.strip }

/-- Proof-support: the payload with the payer default applied — the
renewal-funding identifier filled from the current transaction attempt
when unset. The transaction-body encoding equals the plain encoding of
this payload. -/
def TopicCreateTransactionData.withPayerDefault
    (d : TopicCreateTransactionData) (chunk_info : ChunkInfo) :
    TopicCreateTransactionData :=
  if d.auto_renew_account_id.isNone then
    { d with auto_renew_account_id := some chunk_info.current_transaction_id.account_id }
  else d

/-- One invocation of a payload setter, for reasoning about arbitrary
sequences of setter calls. -/
inductive SetterCall where
  | topic_memo (memo : String)
  | admin_key (key : Key)
  | submit_key (key : Key)
  | auto_renew_period (period : Duration)
  | auto_renew_account_id (id : AccountId)

/-- Dispatches one setter call on the wrapper. -/
def Transaction.applyCall (tx : Transaction) : SetterCall → Option Transaction
  | .topic_memo m => tx.topic_memo m
  | .admin_key k => tx.admin_key k
  | .submit_key k => tx.submit_key k
  | .auto_renew_period p => tx.auto_renew_period p
  | .auto_renew_account_id a => tx.auto_renew_account_id a

/-- Runs a sequence of setter calls on the wrapper, stopping at the first
failure. -/
def Transaction.applyCalls (tx : Transaction) : List SetterCall → Option Transaction
  | [] => some tx
  | c :: cs =>
    match tx.applyCall c with
    | none => none
    | some t => t.applyCalls cs

/-- Proof-support: the effect of one setter call on the bare payload. -/
def applyCallData (d : TopicCreateTransactionData) : SetterCall → TopicCreateTransactionData
  | .topic_memo m => { d with topic_memo := m }
  | .admin_key k => { d with admin_key := some k }
  | .submit_key k => { d with submit_key := some k }
  | .auto_renew_period p => { d with auto_renew_period := some p }
  | .auto_renew_account_id a => { d with auto_renew_account_id := some a }

/-- The last memo value set by a sequence of setter calls, starting from a
given value. -/
def lastTopicMemo (d0 : String) : List SetterCall → String
  | [] => d0
  | .topic_memo m :: cs => lastTopicMemo m cs
  | _ :: cs => lastTopicMemo d0 cs

/-- The last admin key set by a sequence of setter calls. -/
def lastAdminKey (d0 : Option Key) : List SetterCall → Option Key
  | [] => d0
  | .admin_key k :: cs => lastAdminKey (some k) cs
  | _ :: cs => lastAdminKey d0 cs

/-- The last submit key set by a sequence of setter calls. -/
def lastSubmitKey (d0 : Option Key) : List SetterCall → Option Key
  | [] => d0
  | .submit_key k :: cs => lastSubmitKey (some k) cs
  | _ :: cs => lastSubmitKey d0 cs

/-- The last auto-renew period set by a sequence of setter calls. -/
def lastAutoRenewPeriod (d0 : Option Duration) : List SetterCall → Option Duration
  | [] => d0
  | .auto_renew_period p :: cs => lastAutoRenewPeriod (some p) cs
  | _ :: cs => lastAutoRenewPeriod d0 cs

/-- The last auto-renew account identifier set by a sequence of setter
calls. -/
def lastAutoRenewAccountId (d0 : Option AccountId) : List SetterCall → Option AccountId
  | [] => d0
  | .auto_renew_account_id a :: cs => lastAutoRenewAccountId (some a) cs
  | _ :: cs => lastAutoRenewAccountId d0 cs

/-- A session of repeated encode calls: at each step both encoding paths
are invoked on the current payload state, which is threaded through the
session; the encoders take the payload immutably, so the threaded state
is whatever they leave behind — here, by the shallow embedding of the
shared-reference receivers, exactly the payload itself. -/
def TopicCreateTransactionData.encodeSession :
    Nat → TopicCreateTransactionData → ChunkInfo →
    TopicCreateTransactionData × List (Option TransactionBodyData × TransactionBodyData)
  | 0, d, _ => (d, [])
  | n + 1, d, c =>
    let txBody := d.to_transaction_data_protobuf c
    let sched := d.to_schedulable_transaction_data_protobuf
    let rest := TopicCreateTransactionData.encodeSession n d c
    (rest.1, (txBody, sched) :: rest.2)

theorem key_to_from (k : Key) : Key.from_protobuf k.to_protobuf = .ok k := by
  cases k
  rfl

theorem optionKey_to_from (o : Option Key) :
    optionKeyFromProtobuf (o.map Key.to_protobuf) = .ok o := by
  cases o with
  | none => rfl
  | some k =>
    cases k
    rfl

theorem optionAccount_to_from (o : Option AccountId) :
    optionAccountFromProtobuf (o.map AccountId.to_protobuf) = .ok (o.map AccountId.strip) := by
  cases o <;> rfl

theorem duration_to_from (d : Duration) : PbDuration.toDuration d.to_protobuf = d := rfl

theorem optionDuration_to_from (o : Option Duration) :
    (o.map Duration.to_protobuf).map PbDuration.toDuration = o := by
  cases o <;> rfl

theorem optionDuration_to_from_comp (o : Option Duration) :
    Option.map (PbDuration.toDuration ∘ Duration.to_protobuf) o = o := by
  cases o <;> rfl

theorem from_to_protobuf (d : TopicCreateTransactionData) :
    TopicCreateTransactionData.from_protobuf d.to_protobuf = .ok d.stripChecksums := by
  obtain ⟨m, ak, sk, p, acc⟩ := d
  simp [TopicCreateTransactionData.from_protobuf, TopicCreateTransactionData.to_protobuf,
        optionKey_to_from, optionAccount_to_from, optionDuration_to_from,
        optionDuration_to_from_comp, TopicCreateTransactionData.stripChecksums]

theorem stripChecksums_eq_self (d : TopicCreateTransactionData)
    (h : ∀ a, d.auto_renew_account_id = some a → a.checksum = none) :
    d.stripChecksums = d := by
  obtain ⟨m, ak, sk, p, acc⟩ := d
  cases acc with
  | none => rfl
  | some a =>
    have hc := h a rfl
    obtain ⟨s, r, n, cs⟩ := a
    simp_all [TopicCreateTransactionData.stripChecksums, AccountId.strip]

theorem stripChecksums_to_protobuf (d : TopicCreateTransactionData) :
    d.stripChecksums.to_protobuf = d.to_protobuf := by
  obtain ⟨m, ak, sk, p, acc⟩ := d
  cases acc <;> rfl

theorem tx_body_encode_eq (d : TopicCreateTransactionData) (c : ChunkInfo)
    (h : c.total = 1) :
    d.to_transaction_data_protobuf c =
      some (.ConsensusCreateTopic (d.withPayerDefault c).to_protobuf) := by
  obtain ⟨m, ak, sk, p, acc⟩ := d
  cases acc <;>
    simp [TopicCreateTransactionData.to_transaction_data_protobuf,
          ChunkInfo.assert_single_transaction, h,
          TopicCreateTransactionData.withPayerDefault,
          TopicCreateTransactionData.to_protobuf]

/-- C10: a default-constructed topic-creation payload has an empty memo,
unset admin key, unset submit key, unset auto-renew account identifier and
an auto-renew period of 90 days (7776000 seconds, not unset), and it
differs from the payload decoded from a wire message with all fields
absent, whose auto-renew period is unset. -/
theorem default_payload_fields :
    TopicCreateTransactionData.default.topic_memo = "" ∧
    TopicCreateTransactionData.default.admin_key = none ∧
    TopicCreateTransactionData.default.submit_key = none ∧
    TopicCreateTransactionData.default.auto_renew_account_id = none ∧
    TopicCreateTransactionData.default.auto_renew_period = some (Duration.days 90) ∧
    Duration.days 90 = ⟨7776000⟩ ∧
    TopicCreateTransactionData.from_protobuf ⟨"", none, none, none, none⟩ =
      .ok ⟨"", none, none, none, none⟩ ∧
    TopicCreateTransactionData.default ≠ ⟨"", none, none, none, none⟩ := by
  refine ⟨rfl, rfl, rfl, rfl, rfl, by norm_num [Duration.days], rfl, ?_⟩
  intro hEq
  have := congrArg TopicCreateTransactionData.auto_renew_period hEq
  simp [TopicCreateTransactionData.default] at this

/-- C3: for every payload whose chunk metadata describes more than one
chunk, transaction-body encoding fails fast (the single-chunk assertion
panics, embedded as none) instead of returning an encoded message. -/
theorem multi_chunk_encode_fails (d : TopicCreateTransactionData) (c : ChunkInfo)
    (h : 1 < c.total) :
    d.to_transaction_data_protobuf c = none := by
  have ht : c.total ≠ 1 := by omega
  simp [TopicCreateTransactionData.to_transaction_data_protobuf,
        ChunkInfo.assert_single_transaction, ht]

/-- Witness for C3 at a concrete two-chunk metadata. -/
theorem multi_chunk_encode_fails_witness :
    1 < (⟨0, 2, ⟨⟨0, 0, 2, none⟩, 0⟩⟩ : ChunkInfo).total ∧
    TopicCreateTransactionData.default.to_transaction_data_protobuf
      ⟨0, 2, ⟨⟨0, 0, 2, none⟩, 0⟩⟩ = none :=
  ⟨by decide, multi_chunk_encode_fails _ _ (by decide)⟩

/-- C1: on the transaction-body path with single-chunk metadata, an unset
auto-renew account identifier is encoded as the paying account identifier
taken from the chunk info's current transaction identifier, while an
explicitly set identifier is encoded exactly as itself, independent of the
payer. -/
theorem tx_body_auto_renew_account_encoding (d : TopicCreateTransactionData)
    (c : ChunkInfo) (h : c.total = 1) :
    (d.auto_renew_account_id = none →
      d.to_transaction_data_protobuf c =
        some (.ConsensusCreateTopic
          { d.to_protobuf with
            auto_renew_account :=
              some c.current_transaction_id.account_id.to_protobuf })) ∧
    (∀ a, d.auto_renew_account_id = some a →
      d.to_transaction_data_protobuf c = some (.ConsensusCreateTopic d.to_protobuf) ∧
      d.to_protobuf.auto_renew_account = some a.to_protobuf) := by
  rw [tx_body_encode_eq d c h]
  obtain ⟨m, ak, sk, p, acc⟩ := d
  constructor
  · intro hn
    simp only at hn
    subst hn
    rfl
  · intro a ha
    simp only at ha
    subst ha
    exact ⟨rfl, rfl⟩

/-- Witness for C1: unset case with payer account (0,0,2), and set case
with account (0,0,5007). -/
theorem tx_body_auto_renew_account_encoding_witness :
    ((⟨0, 1, ⟨⟨0, 0, 2, none⟩, 0⟩⟩ : ChunkInfo).total = 1 ∧
      TopicCreateTransactionData.default.to_transaction_data_protobuf
          ⟨0, 1, ⟨⟨0, 0, 2, none⟩, 0⟩⟩ =
        some (.ConsensusCreateTopic
          { TopicCreateTransactionData.default.to_protobuf with
            auto_renew_account := some ⟨0, 0, 2⟩ })) ∧
    ((⟨"", none, none, none, some ⟨0, 0, 5007, none⟩⟩ :
        TopicCreateTransactionData).to_transaction_data_protobuf
          ⟨0, 1, ⟨⟨0, 0, 2, none⟩, 0⟩⟩ =
        some (.ConsensusCreateTopic
          (⟨"", none, none, none, some ⟨0, 0, 5007, none⟩⟩ :
            TopicCreateTransactionData).to_protobuf) ∧
      (⟨"", none, none, none, some ⟨0, 0, 5007, none⟩⟩ :
        TopicCreateTransactionData).to_protobuf.auto_renew_account =
        some ⟨0, 0, 5007⟩) :=
  ⟨⟨rfl, (tx_body_auto_renew_account_encoding _ _ rfl).1 rfl⟩,
   (tx_body_auto_renew_account_encoding _ _ rfl).2 ⟨0, 0, 5007, none⟩ rfl⟩

/-- C6: checksum validation of the payload returns Ok when the auto-renew
account identifier is unset, returns Ok when it is set and its embedded
network tag equals the supplied network identity, and returns the
checksum-mismatch error when the tag differs; the check is a pure function
of the payload and the network identity, so neither is mutated. -/
theorem validate_checksums_cases (d : TopicCreateTransactionData) (ledger_id : LedgerId) :
    (d.auto_renew_account_id = none →
      d.validate_checksums ledger_id = .ok ()) ∧
    (∀ a tag, d.auto_renew_account_id = some a → a.checksum = some tag →
      ((tag = ledger_id → d.validate_checksums ledger_id = .ok ()) ∧
       (tag ≠ ledger_id →
         d.validate_checksums ledger_id = .error .checksumMismatch))) := by
  constructor
  · intro hn
    simp [TopicCreateTransactionData.validate_checksums, hn, optionValidateChecksums]
  · intro a tag ha htag
    constructor
    · intro hEq
      subst hEq
      simp [TopicCreateTransactionData.validate_checksums, ha, optionValidateChecksums,
            AccountId.validate_checksums, htag]
    · intro hne
      simp [TopicCreateTransactionData.validate_checksums, ha, optionValidateChecksums,
            AccountId.validate_checksums, htag, hne]

/-- Witness for C6: unset identifier, matching tag, and mismatching tag. -/
theorem validate_checksums_cases_witness :
    TopicCreateTransactionData.default.validate_checksums ⟨[1]⟩ = .ok () ∧
    (⟨"", none, none, none, some ⟨0, 0, 5007, some ⟨[1]⟩⟩⟩ :
        TopicCreateTransactionData).validate_checksums ⟨[1]⟩ = .ok () ∧
    (⟨"", none, none, none, some ⟨0, 0, 5007, some ⟨[1]⟩⟩⟩ :
        TopicCreateTransactionData).validate_checksums ⟨[2]⟩ =
      .error .checksumMismatch :=
  ⟨(validate_checksums_cases _ _).1 rfl,
   ((validate_checksums_cases _ _).2 _ _ rfl rfl).1 rfl,
   ((validate_checksums_cases _ _).2 _ _ rfl rfl).2 (by decide)⟩

/-- C7: for every wire message, whenever decoding succeeds each absent
optional field (admin key, submit key, auto-renew period, auto-renew
account) has decoded to the unset value; and whenever an embedded key is
malformed (absent oneof payload) in the admin or the submit position,
decoding returns a decode error instead of substituting a default. -/
theorem from_protobuf_absent_and_malformed (pb : ConsensusCreateTopicTransactionBody) :
    (∀ d2, TopicCreateTransactionData.from_protobuf pb = .ok d2 →
      (pb.admin_key = none → d2.admin_key = none) ∧
      (pb.submit_key = none → d2.submit_key = none) ∧
      (pb.auto_renew_period = none → d2.auto_renew_period = none) ∧
      (pb.auto_renew_account = none → d2.auto_renew_account_id = none)) ∧
    (pb.admin_key = some ⟨none⟩ ∨ pb.submit_key = some ⟨none⟩ →
      TopicCreateTransactionData.from_protobuf pb = .error .fromProtobuf) := by
  obtain ⟨m, ak, sk, p, acc⟩ := pb
  constructor
  · intro d2 hok
    rcases ak with _ | ⟨_ | ⟨bs⟩⟩ <;> rcases sk with _ | ⟨_ | ⟨bs2⟩⟩ <;>
        rcases acc with _ | acc2 <;>
      simp only [TopicCreateTransactionData.from_protobuf, optionKeyFromProtobuf,
                 Key.from_protobuf, optionAccountFromProtobuf, AccountId.from_protobuf,
                 Except.map] at hok
    all_goals
      first
        | exact Except.noConfusion hok
        | (injection hok with h2
           subst h2
           refine ⟨?_, ?_, ?_, ?_⟩ <;> intro hp <;> simp_all)
  · rintro (h | h)
    · simp only at h
      subst h
      rfl
    · simp only at h
      subst h
      rcases ak with _ | ⟨_ | ⟨bs⟩⟩ <;> rfl

/-- Witness for C7: a message with an absent admin key and a present
submit key decodes with the admin key unset; a message with a valid admin
key and a malformed submit key fails to decode. -/
theorem from_protobuf_absent_and_malformed_witness :
    TopicCreateTransactionData.from_protobuf
        ⟨"m", none, some ⟨some (.ed25519 [2])⟩, none, none⟩ =
      .ok ⟨"m", none, some (.ed25519 [2]), none, none⟩ ∧
    (⟨"m", none, some (.ed25519 [2]), none, none⟩ :
      TopicCreateTransactionData).admin_key = none ∧
    TopicCreateTransactionData.from_protobuf
        ⟨"m", some ⟨some (.ed25519 [1])⟩, some ⟨none⟩, none, none⟩ =
      .error .fromProtobuf :=
  ⟨rfl,
   ((from_protobuf_absent_and_malformed
      ⟨"m", none, some ⟨some (.ed25519 [2])⟩, none, none⟩).1
      ⟨"m", none, some (.ed25519 [2]), none, none⟩ rfl).1 rfl,
   (from_protobuf_absent_and_malformed _).2 (Or.inr rfl)⟩

/-- C4: every setter invoked on a frozen transaction fails with the
programmer-error signal (the panic of the frozen-state guard, embedded as
none): no updated transaction is produced, so the payload fields are left
unchanged. -/
theorem frozen_setters_fail (tx : Transaction) (h : tx.frozen = true)
    (m : String) (k1 k2 : Key) (p : Duration) (a : AccountId) :
    tx.topic_memo m = none ∧ tx.admin_key k1 = none ∧ tx.submit_key k2 = none ∧
    tx.auto_renew_period p = none ∧ tx.auto_renew_account_id a = none := by
  simp [Transaction.topic_memo, Transaction.admin_key, Transaction.submit_key,
        Transaction.auto_renew_period, Transaction.auto_renew_account_id,
        Transaction.data_mut, h]

/-- Witness for C4 at a concrete frozen transaction. -/
theorem frozen_setters_fail_witness :
    (Transaction.new.freeze ⟨⟨0, 0, 2, none⟩, 0⟩).topic_memo "x" = none ∧
    (Transaction.new.freeze ⟨⟨0, 0, 2, none⟩, 0⟩).admin_key (.ed25519 [1]) = none ∧
    (Transaction.new.freeze ⟨⟨0, 0, 2, none⟩, 0⟩).submit_key (.ed25519 [2]) = none ∧
    (Transaction.new.freeze ⟨⟨0, 0, 2, none⟩, 0⟩).auto_renew_period ⟨86400⟩ = none ∧
    (Transaction.new.freeze ⟨⟨0, 0, 2, none⟩, 0⟩).auto_renew_account_id
      ⟨0, 0, 5007, none⟩ = none :=
  frozen_setters_fail _ rfl "x" (.ed25519 [1]) (.ed25519 [2]) ⟨86400⟩ ⟨0, 0, 5007, none⟩

/-- C2: the plain codec pair is a round trip — decoding the plain encoding
of any payload (whose set identifier carries no client-side network-tag
annotation, the only data the wire cannot represent) reproduces the
payload exactly, for every combination of presence and absence of the four
optional fields and every memo string; in particular decoding a
schedulable encoding of a payload with unset auto-renew account yields an
unset auto-renew account — the payer default is never introduced by this
codec pair. -/
theorem plain_codec_roundtrip (d : TopicCreateTransactionData)
    (h : ∀ a, d.auto_renew_account_id = some a → a.checksum = none) :
    TopicCreateTransactionData.from_protobuf d.to_protobuf = .ok d ∧
    (d.auto_renew_account_id = none →
      ∀ pb, d.to_schedulable_transaction_data_protobuf = .ConsensusCreateTopic pb →
        ∃ d2, TopicCreateTransactionData.from_protobuf pb = .ok d2 ∧
          d2.auto_renew_account_id = none) := by
  have hrt : TopicCreateTransactionData.from_protobuf d.to_protobuf = .ok d := by
    rw [from_to_protobuf, stripChecksums_eq_self d h]
  refine ⟨hrt, ?_⟩
  intro hn pb hpb
  have hpb' : TransactionBodyData.ConsensusCreateTopic d.to_protobuf =
      .ConsensusCreateTopic pb := hpb
  injection hpb' with hpb2
  subst hpb2
  exact ⟨d, hrt, hn⟩

/-- Witness for C2: a payload with every optional field present, and one
with the auto-renew account unset decoded back from its schedulable
encoding. -/
theorem plain_codec_roundtrip_witness :
    TopicCreateTransactionData.from_protobuf
        (⟨"memo", some (.ed25519 [1]), some (.ed25519 [2]), some ⟨86400⟩,
          some ⟨0, 0, 5007, none⟩⟩ : TopicCreateTransactionData).to_protobuf =
      .ok ⟨"memo", some (.ed25519 [1]), some (.ed25519 [2]), some ⟨86400⟩,
          some ⟨0, 0, 5007, none⟩⟩ ∧
    (∃ d2, TopicCreateTransactionData.from_protobuf
        (⟨"", some (.ed25519 [1]), none, some ⟨86400⟩, none⟩ :
          TopicCreateTransactionData).to_protobuf = .ok d2 ∧
      d2.auto_renew_account_id = none) :=
  ⟨(plain_codec_roundtrip _ (by intro a ha; simp at ha; subst ha; rfl)).1,
   (plain_codec_roundtrip _ (by intro a ha; simp at ha)).2 rfl _ rfl⟩

/-- C5: for every payload, a session of any number of repeated encode
calls, each invoking both the transaction-body path and the schedulable
path on the current payload state, leaves the payload unchanged (the
encoders take the payload immutably and the threaded state comes back
identical); and when the auto-renew account identifier is unset, every
schedulable encoding produced during the session has an absent
auto_renew_account wire field — the payer default is never injected on
the schedulable path. -/
theorem encode_session_frame_and_schedulable (d : TopicCreateTransactionData)
    (c : ChunkInfo) (n : Nat) :
    (TopicCreateTransactionData.encodeSession n d c).1 = d ∧
    (d.auto_renew_account_id = none →
      ∀ p ∈ (TopicCreateTransactionData.encodeSession n d c).2,
        p.2 = .ConsensusCreateTopic d.to_protobuf ∧
        d.to_protobuf.auto_renew_account = none) := by
  induction n with
  | zero =>
    exact ⟨rfl, by intro h p hp; simp [TopicCreateTransactionData.encodeSession] at hp⟩
  | succ n ih =>
    obtain ⟨ih1, ih2⟩ := ih
    refine ⟨ih1, ?_⟩
    intro h p hp
    simp only [TopicCreateTransactionData.encodeSession, List.mem_cons] at hp
    rcases hp with hp | hp
    · subst hp
      refine ⟨rfl, ?_⟩
      simp [TopicCreateTransactionData.to_protobuf, h]
    · exact ih2 h p hp

/-- Witness for C5: two encode rounds on the payload with unset auto-renew
account, payer (0,0,2). -/
theorem encode_session_frame_and_schedulable_witness :
    (TopicCreateTransactionData.encodeSession 2 TopicCreateTransactionData.default
        ⟨0, 1, ⟨⟨0, 0, 2, none⟩, 0⟩⟩).1 = TopicCreateTransactionData.default ∧
    ∀ p ∈ (TopicCreateTransactionData.encodeSession 2 TopicCreateTransactionData.default
        ⟨0, 1, ⟨⟨0, 0, 2, none⟩, 0⟩⟩).2,
      p.2 = .ConsensusCreateTopic TopicCreateTransactionData.default.to_protobuf ∧
      TopicCreateTransactionData.default.to_protobuf.auto_renew_account = none :=
  ⟨(encode_session_frame_and_schedulable TopicCreateTransactionData.default
      ⟨0, 1, ⟨⟨0, 0, 2, none⟩, 0⟩⟩ 2).1,
   (encode_session_frame_and_schedulable TopicCreateTransactionData.default
      ⟨0, 1, ⟨⟨0, 0, 2, none⟩, 0⟩⟩ 2).2 rfl⟩

theorem applyCall_not_frozen (tx : Transaction) (c : SetterCall) (h : tx.frozen = false) :
    tx.applyCall c = some { tx with body_data := applyCallData tx.body_data c } := by
  cases c <;>
    simp [Transaction.applyCall, Transaction.topic_memo, Transaction.admin_key,
          Transaction.submit_key, Transaction.auto_renew_period,
          Transaction.auto_renew_account_id, Transaction.data_mut, h, applyCallData]

theorem applyCalls_not_frozen (calls : List SetterCall) (tx : Transaction)
    (h : tx.frozen = false) :
    tx.applyCalls calls = some { tx with body_data := calls.foldl applyCallData tx.body_data } := by
  induction calls generalizing tx with
  | nil => rfl
  | cons c cs ih =>
    rw [Transaction.applyCalls, applyCall_not_frozen tx c h]
    exact ih _ h

theorem foldl_topic_memo (calls : List SetterCall) (d : TopicCreateTransactionData) :
    (calls.foldl applyCallData d).topic_memo = lastTopicMemo d.topic_memo calls := by
  induction calls generalizing d with
  | nil => rfl
  | cons c cs ih => cases c <;> simp [List.foldl, applyCallData, lastTopicMemo, ih]

theorem foldl_admin_key (calls : List SetterCall) (d : TopicCreateTransactionData) :
    (calls.foldl applyCallData d).admin_key = lastAdminKey d.admin_key calls := by
  induction calls generalizing d with
  | nil => rfl
  | cons c cs ih => cases c <;> simp [List.foldl, applyCallData, lastAdminKey, ih]

theorem foldl_submit_key (calls : List SetterCall) (d : TopicCreateTransactionData) :
    (calls.foldl applyCallData d).submit_key = lastSubmitKey d.submit_key calls := by
  induction calls generalizing d with
  | nil => rfl
  | cons c cs ih => cases c <;> simp [List.foldl, applyCallData, lastSubmitKey, ih]

theorem foldl_auto_renew_period (calls : List SetterCall) (d : TopicCreateTransactionData) :
    (calls.foldl applyCallData d).auto_renew_period =
      lastAutoRenewPeriod d.auto_renew_period calls := by
  induction calls generalizing d with
  | nil => rfl
  | cons c cs ih => cases c <;> simp [List.foldl, applyCallData, lastAutoRenewPeriod, ih]

theorem foldl_auto_renew_account_id (calls : List SetterCall) (d : TopicCreateTransactionData) :
    (calls.foldl applyCallData d).auto_renew_account_id =
      lastAutoRenewAccountId d.auto_renew_account_id calls := by
  induction calls generalizing d with
  | nil => rfl
  | cons c cs ih => cases c <;> simp [List.foldl, applyCallData, lastAutoRenewAccountId, ih]

/-- C8: any sequence of setter calls on a not-yet-frozen transaction
succeeds, and after freezing each getter returns exactly the value last
set for its field during the sequence (or the field's prior value when the
sequence never set it); the getters are total functions, so they never
fail, frozen or not. -/
theorem getters_after_freeze_last_write (tx : Transaction) (calls : List SetterCall)
    (id : TransactionId) (h : tx.frozen = false) :
    ∃ tx1, tx.applyCalls calls = some tx1 ∧
      (tx1.freeze id).get_topic_memo = lastTopicMemo tx.get_topic_memo calls ∧
      (tx1.freeze id).get_admin_key = lastAdminKey tx.get_admin_key calls ∧
      (tx1.freeze id).get_submit_key = lastSubmitKey tx.get_submit_key calls ∧
      (tx1.freeze id).get_auto_renew_period =
        lastAutoRenewPeriod tx.get_auto_renew_period calls ∧
      (tx1.freeze id).get_auto_renew_account_id =
        lastAutoRenewAccountId tx.get_auto_renew_account_id calls := by
  refine ⟨_, applyCalls_not_frozen calls tx h, ?_, ?_, ?_, ?_, ?_⟩ <;>
    simp [Transaction.freeze, Transaction.data, Transaction.get_topic_memo,
          Transaction.get_admin_key, Transaction.get_submit_key,
          Transaction.get_auto_renew_period, Transaction.get_auto_renew_account_id,
          foldl_topic_memo, foldl_admin_key, foldl_submit_key,
          foldl_auto_renew_period, foldl_auto_renew_account_id]

/-- Witness for C8: a fresh transaction, a sequence that sets the memo
twice (the second write wins) and the admin key once, then freezes. -/
theorem getters_after_freeze_last_write_witness :
    ∃ tx1, Transaction.new.applyCalls
        [.topic_memo "a", .admin_key (.ed25519 [1]), .topic_memo "b"] = some tx1 ∧
      (tx1.freeze ⟨⟨0, 0, 2, none⟩, 0⟩).get_topic_memo = "b" ∧
      (tx1.freeze ⟨⟨0, 0, 2, none⟩, 0⟩).get_admin_key = some (.ed25519 [1]) ∧
      (tx1.freeze ⟨⟨0, 0, 2, none⟩, 0⟩).get_submit_key = none ∧
      (tx1.freeze ⟨⟨0, 0, 2, none⟩, 0⟩).get_auto_renew_period = some (Duration.days 90) ∧
      (tx1.freeze ⟨⟨0, 0, 2, none⟩, 0⟩).get_auto_renew_account_id = none :=
  getters_after_freeze_last_write Transaction.new
    [.topic_memo "a", .admin_key (.ed25519 [1]), .topic_memo "b"]
    ⟨⟨0, 0, 2, none⟩, 0⟩ rfl

theorem withPayerDefault_isSome (d : TopicCreateTransactionData) (c : ChunkInfo) :
    (d.withPayerDefault c).auto_renew_account_id.isSome = true := by
  unfold TopicCreateTransactionData.withPayerDefault
  cases hd : d.auto_renew_account_id <;> simp [hd]

theorem withPayerDefault_of_isSome (d : TopicCreateTransactionData) (c : ChunkInfo)
    (h : d.auto_renew_account_id.isSome = true) : d.withPayerDefault c = d := by
  unfold TopicCreateTransactionData.withPayerDefault
  cases hd : d.auto_renew_account_id with
  | none => rw [hd] at h; simp at h
  | some a => simp [hd]

theorem stripChecksums_isSome (d : TopicCreateTransactionData) :
    d.stripChecksums.auto_renew_account_id.isSome = d.auto_renew_account_id.isSome := by
  obtain ⟨m, ak, sk, p, acc⟩ := d
  cases acc <;> rfl

/-- C9: serialising a frozen transaction to its wire body and decoding the
bytes back through the type-erased variant registry succeeds, lands in the
TopicCreate case, reproduces the wrapper metadata (frozen state and the
transaction identifier, hence payer and timestamp), and re-serialising the
decoded transaction yields the identical wire body — every field the wire
schema can represent is reproduced. -/
theorem any_transaction_wire_roundtrip (tx : Transaction) (id : TransactionId)
    (hf : tx.frozen = true) (hid : tx.transaction_id = some id) :
    ∃ w tx2, tx.to_wire = some w ∧ AnyTransaction.from_wire w = .ok tx2 ∧
      (∃ d2, tx2.body_data = AnyTransactionData.TopicCreate d2) ∧
      tx2.frozen = true ∧ tx2.transaction_id = some id ∧
      tx2.to_wire = some w := by
  have hsingle : (ChunkInfo.single id).total = 1 := rfl
  have h1 : tx.to_wire = some ⟨id, .ConsensusCreateTopic
      ((tx.body_data.withPayerDefault (ChunkInfo.single id)).to_protobuf)⟩ := by
    simp [Transaction.to_wire, hf, hid, tx_body_encode_eq _ _ hsingle]
  refine ⟨⟨id, .ConsensusCreateTopic
      ((tx.body_data.withPayerDefault (ChunkInfo.single id)).to_protobuf)⟩,
    ⟨.TopicCreate ((tx.body_data.withPayerDefault (ChunkInfo.single id)).stripChecksums),
      true, some id⟩, h1, ?_, ⟨_, rfl⟩, rfl, rfl, ?_⟩
  · simp [AnyTransaction.from_wire, from_to_protobuf, Except.map]
  · have hS : ((tx.body_data.withPayerDefault
        (ChunkInfo.single id)).stripChecksums).auto_renew_account_id.isSome = true := by
      rw [stripChecksums_isSome]
      exact withPayerDefault_isSome _ _
    have hW := withPayerDefault_of_isSome
      ((tx.body_data.withPayerDefault (ChunkInfo.single id)).stripChecksums)
      (ChunkInfo.single id) hS
    simp [AnyTransaction.to_wire, AnyTransactionData.to_transaction_data_protobuf,
          tx_body_encode_eq _ _ hsingle, hW, stripChecksums_to_protobuf]

/-- Witness for C9: a frozen default transaction with payer (0,0,2). -/
theorem any_transaction_wire_roundtrip_witness :
    ∃ w tx2, (Transaction.new.freeze ⟨⟨0, 0, 2, none⟩, 1⟩).to_wire = some w ∧
      AnyTransaction.from_wire w = .ok tx2 ∧
      (∃ d2, tx2.body_data = AnyTransactionData.TopicCreate d2) ∧
      tx2.frozen = true ∧ tx2.transaction_id = some ⟨⟨0, 0, 2, none⟩, 1⟩ ∧
      tx2.to_wire = some w :=
  any_transaction_wire_roundtrip (Transaction.new.freeze ⟨⟨0, 0, 2, none⟩, 1⟩)
    ⟨⟨0, 0, 2, none⟩, 1⟩ rfl rfl
